import Mathlib

/-!
A verification development for the single-session terminal controller
(`src/`): the pattern scanner (`src/utils/patterns.py`), the output
fan-out hubs (`src/core/session_manager.py`, `src/core/log_monitor.py`),
the PTY session lifecycle (`src/utils/pty_session.py`), the session
registry (`src/core/session_manager.py`), the auto-tunnel orchestrator
(`src/core/auto_tunnel.py`), the hybrid tunnel facade
(`src/core/hybrid_tunnel_manager.py`) and the named tunnel manager
(`src/core/named_tunnel_manager.py`).

Python state is embedded as explicit state passing; OS calls
(signals, waits, file writes) are embedded as emitted action events,
and OS observations (process liveness, DNS results, spawn results,
timestamps) are passed in as explicit parameters.
-/

namespace CloudeCode

/-! ## Pattern scanner (`src/utils/patterns.py`)

The two port-bearing regexes of `PatternDetector.PATTERNS` are
transliterated branch by branch, keeping Python `re.search` semantics:
leftmost starting position wins, alternatives are tried in source
order, `.*?` is lazy and does not cross a newline, `\s*` and `\d+`
are greedy. -/

/-- Python `re` class `\s`: space, tab, newline, carriage return,
vertical tab, form feed. -/
def isSpaceRe (c : Char) : Bool :=
  c = ' ' || c = '\t' || c = '\n' || c = '\r' || c = '\x0b' || c = '\x0c'

/-- Value of a list of decimal digits, as Python `int` on the
captured group. -/
def digitsToNat (l : List Char) : Nat :=
  l.foldl (fun n c => 10 * n + (c.toNat - 48)) 0

/-- Match a literal, case sensitively; return the rest on success. -/
def matchLit : List Char → List Char → Option (List Char)
  | [], l => some l
  | _ :: _, [] => none
  | p :: ps, c :: cs => if p = c then matchLit ps cs else none

/-- Match a literal up to ASCII case (the `re.IGNORECASE` patterns). -/
def matchLitCI : List Char → List Char → Option (List Char)
  | [], l => some l
  | _ :: _, [] => none
  | p :: ps, c :: cs => if p.toLower = c.toLower then matchLitCI ps cs else none

/-- Greedy `(\d+)` capture: succeeds iff at least one digit is next. -/
def captureDigits (l : List Char) : Option Nat :=
  let ds := l.takeWhile Char.isDigit
  if ds.isEmpty then none else some (digitsToNat ds)

/-- One branch `(?:https?://)?HOST:(\d+)` of the `localhost_server`
regex: the optional scheme is greedy (`https://` before `http://`
before nothing), then the host literal, `:`, and the digit capture. -/
def localhostBranch (host : List Char) (l : List Char) : Option Nat :=
  (matchLit ("https://".data ++ host ++ [':']) l >>= captureDigits) <|>
  (matchLit ("http://".data ++ host ++ [':']) l >>= captureDigits) <|>
  (matchLit (host ++ [':']) l >>= captureDigits)

/-- The `localhost_server` regex tried at one position: its four
alternation branches in source order (the IPv6 branch is itself an
alternation `\[::\]|\[::1\]`). -/
def localhostAt (l : List Char) : Option Nat :=
  localhostBranch "localhost".data l <|>
  localhostBranch "127.0.0.1".data l <|>
  localhostBranch "0.0.0.0".data l <|>
  localhostBranch "[::]".data l <|>
  localhostBranch "[::1]".data l

/-- Source `re.search` of the `localhost_server` regex: leftmost matching
position; the returned value is the digit group of the matching
branch (the only non-empty group of the match). -/
def searchLocalhost : List Char → Option Nat
  | [] => none
  | c :: rest => localhostAt (c :: rest) <|> searchLocalhost rest

/-- After `(?:port|on|:)`, the `\s*(\d+)` tail: greedy whitespace,
then the digit capture. -/
def afterKeyword2 (l : List Char) : Option Nat :=
  captureDigits (l.dropWhile isSpaceRe)

/-- The tail `(?:port|on|:)\s*(\d+)` tried at one position, alternatives in
source order. -/
def listenTail (l : List Char) : Option Nat :=
  (matchLitCI "port".data l >>= afterKeyword2) <|>
  (matchLitCI "on".data l >>= afterKeyword2) <|>
  (matchLitCI ":".data l >>= afterKeyword2)

/-- The lazy `.*?` between the two keyword groups: try the tail at
the current position first, else consume one character (never a
newline, as `.` does not match `\n`) and retry. -/
def listenLazy : List Char → Option Nat
  | [] => listenTail []
  | c :: rest => listenTail (c :: rest) <|>
      (if c = '\n' then none else listenLazy rest)

/-- The `listening_on_port` regex tried at one position: the first
keyword group's alternatives in source order, each continued by the
lazy middle and the tail. -/
def listeningAt (l : List Char) : Option Nat :=
  (matchLitCI "listening".data l >>= listenLazy) <|>
  (matchLitCI "running".data l >>= listenLazy) <|>
  (matchLitCI "started".data l >>= listenLazy) <|>
  (matchLitCI "serving".data l >>= listenLazy)

/-- Source `re.search` of the `listening_on_port` regex: leftmost matching
position, returning the digit group. -/
def searchListening : List Char → Option Nat
  | [] => none
  | c :: rest => listeningAt (c :: rest) <|> searchListening rest

/-- Source `PatternDetector.detect_patterns` restricted to the
`localhost_server` pattern: whether `re.search` finds a match. -/
def localhostMatches (s : String) : Bool :=
  (searchLocalhost s.data).isSome

/-- Whether the `listening_on_port` regex matches the line. -/
def listeningMatches (s : String) : Bool :=
  (searchListening s.data).isSome

/-- Source `PatternDetector.extract_port`: try the `localhost_server`
pattern first and return its first non-empty numeric group; fall back
to the `listening_on_port` pattern's group 1; else `None`. -/
def extract_port (s : String) : Option Nat :=
  match searchLocalhost s.data with
  | some p => some p
  | none => searchListening s.data

/-! ## Data model (`src/models.py`) -/

/-- Source `SessionStatus` enumeration. -/
inductive SessionStatus
  | creating
  | running
  | stopped
  | error
deriving DecidableEq, Repr

/-- Source `TunnelStatus` enumeration. -/
inductive TunnelStatus
  | creating
  | active
  | stopped
  | error
deriving DecidableEq, Repr

/-- The `Tunnel` model. Timestamps are abstracted as naturals. -/
structure Tunnel where
  id : String
  session_id : String
  port : Nat
  public_url : String
  created_at : Nat
  status : TunnelStatus
  process_pid : Option Nat
deriving DecidableEq, Repr

/-- The `Session` model. -/
structure Session where
  id : String
  pty_pid : Option Nat
  working_dir : String
  status : SessionStatus
  created_at : Nat
  last_activity : Nat
  tunnels : List Tunnel
deriving DecidableEq, Repr

/-- A `LogEntry` of the session log buffer. -/
structure LogEntry where
  timestamp : Nat
  session_id : String
  content : String
  log_type : String
deriving DecidableEq, Repr

/-! ## Bounded queues (`asyncio.Queue`)

`maxsize = 0` means unbounded, as in `asyncio`. `put_nowait` on a
full queue raises `QueueFull`; every broadcaster in the source
catches it and drops the message, so the dropping variant is embedded
directly. -/

/-- An `asyncio.Queue`: `maxsize` (0 = unbounded) and current items,
oldest first. -/
structure BQueue (α : Type) where
  maxsize : Nat
  items : List α
deriving DecidableEq, Repr

/-- Source `queue.full()`: true iff the queue is bounded and at capacity. -/
def qFull {α : Type} (q : BQueue α) : Bool :=
  0 < q.maxsize && q.maxsize ≤ q.items.length

/-- Source `put_nowait` with `QueueFull` caught by the caller: append unless
full, drop (leave the queue unchanged) when full. -/
def putNowaitDrop {α : Type} (q : BQueue α) (x : α) : BQueue α :=
  if qFull q then q else { q with items := q.items ++ [x] }

/-- Source `await queue.put(x)` on the unbounded queues handed out by
`SessionManager.subscribe_output` (`asyncio.Queue()` has
`maxsize = 0`, which is never full): append. -/
def qputUnbounded {α : Type} (q : BQueue α) (x : α) : BQueue α :=
  { q with items := q.items ++ [x] }

/-! ## Base64 (`base64.b64encode` in `_handle_pty_output`) -/

/-- The standard base64 alphabet. -/
def b64Alphabet : List Char :=
  "ABCDEFGHIJKLMNOPQRSTUVWXYZabcdefghijklmnopqrstuvwxyz0123456789+/".data

/-- Character for one 6-bit value. -/
def b64Char (n : Nat) : Char := b64Alphabet.getD n '='

/-- Standard base64 of a byte list, with `=` padding. -/
def b64Encode : List Nat → List Char
  | [] => []
  | [a] => [b64Char (a / 4), b64Char (a % 4 * 16), '=', '=']
  | [a, b] => [b64Char (a / 4), b64Char (a % 4 * 16 + b / 16),
      b64Char (b % 16 * 4), '=']
  | a :: b :: c :: rest =>
      b64Char (a / 4) :: b64Char (a % 4 * 16 + b / 16) ::
      b64Char (b % 16 * 4 + c / 64) :: b64Char (c % 64) :: b64Encode rest

/-! ## Output fan-out hubs

Two hubs exist in the source.  `SessionManager` fans PTY bytes out to
unbounded queues with `await queue.put`
(`session_manager.py:101-138`); `LogMonitor` fans log messages out to
bounded queues (`maxsize=100`) with `put_nowait`, dropping on
`QueueFull` (`log_monitor.py:32-78`).  Both iterate over a copy of
the subscriber collection taken at call time.  A subscriber list
stands for the subscriber set/list; each entry is one subscriber's
queue. -/

/-- Source `SessionManager.subscribe_output`: a fresh unbounded queue is
appended to the subscriber list and returned to the caller. -/
def subscribe_output (subs : List (BQueue String)) : List (BQueue String) :=
  subs ++ [⟨0, []⟩]

/-- Source `SessionManager.unsubscribe_output`: remove the given subscriber
entry if present (`list.remove` removes the first occurrence). -/
def unsubscribe_output (subs : List (BQueue String)) (i : Nat) :
    List (BQueue String) :=
  subs.take i ++ subs.drop (i + 1)

/-- Source `SessionManager._handle_pty_output`: base64-encode the chunk and
`await put` it to every queue subscribed at call time (the iteration
is over `self._output_subscribers.copy()`; the queues are unbounded,
so the put appends and never blocks). -/
def handle_pty_output (subs : List (BQueue String)) (data : List Nat) :
    List (BQueue String) :=
  subs.map (fun q => qputUnbounded q (String.mk (b64Encode data)))

/-- Source `LogMonitor.subscribe`: a fresh bounded queue (`maxsize=100`). -/
def logSubscribe (subs : List (BQueue String)) : List (BQueue String) :=
  subs ++ [⟨100, []⟩]

/-- Source `LogMonitor._broadcast_log`: `put_nowait` the serialized message
to every queue subscribed at call time, dropping for a subscriber
whose queue is full (`QueueFull` caught) and leaving every other
subscriber and the producer unaffected.  `msg` stands for the
serialized `WSLogMessage`. -/
def broadcast_log (subs : List (BQueue String)) (msg : String) :
    List (BQueue String) :=
  subs.map (fun q => putNowaitDrop q msg)

/-! ## PTY session lifecycle (`src/utils/pty_session.py`)

The parent-side state of a `PTYSession` and the OS effects of
`stop()` (`pty_session.py:219-254`).  OS calls appear as an emitted
action trace; whether the child process still exists when signalled
is an input (`os.kill` raises `ProcessLookupError` on a dead pid,
which `stop` catches). -/

/-- Parent-side fields of `PTYSession` that `stop` touches. -/
structure PTYState where
  running : Bool
  pid : Option Nat
  master_fd : Option Nat
  reader_task : Bool
deriving DecidableEq, Repr

/-- OS actions issued by `stop`. -/
inductive PTYAction
  | cancelReader
  | signalTerm (pid : Nat)
  | waitPid (pid : Nat)
  | signalKill (pid : Nat)
  | closeFd (fd : Nat)
deriving DecidableEq, Repr

/-- Source `PTYSession.stop`: a no-op when not running; otherwise clears
`running`, cancels the reader task, sends `SIGTERM` to the child when
a pid is set (a dead child raises `ProcessLookupError`, caught, and
the wait is skipped), waits via `os.waitpid(pid, 0)` — an unbounded
wait with no timeout argument — and closes the master descriptor.
`childAlive` tells whether the pid still exists when signalled.
Note `if self.pid:` is Python truthiness: pid `0` is falsy. -/
def ptyStop (st : PTYState) (childAlive : Bool) :
    PTYState × List PTYAction :=
  if !st.running then (st, [])
  else
    let acts1 : List PTYAction :=
      if st.reader_task then [PTYAction.cancelReader] else []
    let acts2 : List PTYAction :=
      match st.pid with
      | some pid =>
          if pid = 0 then []
          else if childAlive then
            [PTYAction.signalTerm pid, PTYAction.waitPid pid]
          else
            [PTYAction.signalTerm pid]
      | none => []
    let acts3 : List PTYAction :=
      match st.master_fd with
      | some fd => [PTYAction.closeFd fd]
      | none => []
    ({ st with running := false, master_fd := none },
     acts1 ++ acts2 ++ acts3)

/-! ## Session registry (`src/core/session_manager.py`)

`SessionManager` state is passed explicitly.  Writes to the metadata
file are emitted as persistence events and mirrored in `store` (the
current content of the metadata file, `none` when the file does not
exist).  OS observations — process liveness, the pid returned by a
successful `pty.fork`, timestamps — are parameters. -/

/-- The view of the `PTYSession` object that `SessionManager` keeps:
its `pid` attribute and whether it is running. -/
structure PTYHandle where
  pid : Option Nat
  running : Bool
deriving DecidableEq, Repr

/-- Durable-storage effects of `SessionManager`: a full-snapshot
write of the session record (`_save_session_metadata`), or deletion
of the metadata file (`metadata_path.unlink()`). -/
inductive PersistEvent
  | save (s : Session)
  | deleteFile
deriving DecidableEq, Repr

/-- Errors raised by `SessionManager` (all surfaced as `ValueError`,
the validation error of the API layer); the constructors separate the
distinct raise sites. -/
inductive SMError
  | alreadyRunning
  | creationFailed
  | noSession
  | notRunning
  | ptyNotInitialized
  | sendFailed
deriving DecidableEq, Repr

/-- Mutable fields of `SessionManager`, plus `store`, the content of
the persisted metadata file. -/
structure SMState where
  session : Option Session
  pty : Option PTYHandle
  log_buffer : List LogEntry
  command_count : Nat
  output_subscribers : List (BQueue String)
  store : Option Session
deriving DecidableEq, Repr

/-- Source `SessionManager.has_active_session`: a session exists, its status
is `RUNNING`, and the `pty` attribute is set. -/
def has_active_session (st : SMState) : Bool :=
  match st.session with
  | some s => s.status = SessionStatus.running && st.pty.isSome
  | none => false

/-- Source `SessionManager._load_session_metadata`, run by the constructor:
`store` is the parsed metadata file if present, `alive pid` is
whether `os.kill(pid, 0)` succeeds.  A record with a live pid is
restored with status `RUNNING` (no PTY object is attached); a record
with a dead pid, or no pid (`if self.session.pty_pid:` — Python
truthiness, so pid `0` counts as absent), is discarded and the file
unlinked. -/
def load_session_metadata (store : Option Session) (alive : Nat → Bool) :
    SMState × List PersistEvent :=
  match store with
  | none => (⟨none, none, [], 0, [], none⟩, [])
  | some r =>
    match r.pty_pid with
    | some pid =>
      if pid = 0 then
        (⟨none, none, [], 0, [], none⟩, [PersistEvent.deleteFile])
      else if alive pid then
        (⟨some { r with status := SessionStatus.running },
          none, [], 0, [], some r⟩, [])
      else
        (⟨none, none, [], 0, [], none⟩, [PersistEvent.deleteFile])
    | none =>
        (⟨none, none, [], 0, [], none⟩, [PersistEvent.deleteFile])

/-- Source `SessionManager.create_session`: raises if an active session
exists; otherwise discards a zombie session record (deleting its
metadata file), then spawns the PTY (`spawn` is `some pid` on
success, `none` when `PTYSession.start` raises), records the new
`RUNNING` session and persists it.  `working_dir` defaults to
`settingsWorkDir / session_id`.  Template copying only writes files
into the working directory and is elided.  (On the spawn-failure path
`self.session` is `None`, so the `status = ERROR` assignment there is
a no-op; the freshly constructed, unstarted `PTYSession` object
remains in `self.pty`.) -/
def create_session (st : SMState) (session_id : String)
    (working_dir : Option String) (settingsWorkDir : String)
    (spawn : Option Nat) (now : Nat) :
    SMState × List PersistEvent × Except SMError Session :=
  if has_active_session st then
    (st, [], Except.error SMError.alreadyRunning)
  else
    let cleanup :=
      if st.session.isSome then
        ({ st with session := none, store := none },
         if st.store.isSome then [PersistEvent.deleteFile] else [])
      else (st, ([] : List PersistEvent))
    let st1 := cleanup.1
    let ev1 := cleanup.2
    let work_path :=
      match working_dir with
      | some wd => wd
      | none => settingsWorkDir ++ "/" ++ session_id
    match spawn with
    | none =>
        ({ st1 with pty := some ⟨none, false⟩ }, ev1,
         Except.error SMError.creationFailed)
    | some pid =>
        let sess : Session :=
          ⟨session_id, some pid, work_path, SessionStatus.running,
           now, now, []⟩
        ({ st1 with
            pty := some ⟨some pid, true⟩,
            session := some sess,
            store := some sess },
         ev1 ++ [PersistEvent.save sess], Except.ok sess)

/-- Source `SessionManager.destroy_session`: raises when no session exists;
otherwise stops the PTY (its OS effects are those of `ptyStop`),
deletes the metadata file if present, and clears the session, log
buffer, command counter and output subscribers. -/
def destroy_session (st : SMState) :
    SMState × List PersistEvent × Except SMError Bool :=
  match st.session with
  | none => (st, [], Except.error SMError.noSession)
  | some _ =>
      (⟨none, none, [], 0, [],
        none⟩,
       if st.store.isSome then [PersistEvent.deleteFile] else [],
       Except.ok true)

/-- Source `SessionManager.send_command`: validates session presence, status
`RUNNING` and PTY presence, writes the newline-terminated command to
the PTY (`writeOk` is whether the write raises), bumps
`last_activity` and the command counter, and persists a snapshot. -/
def send_command (st : SMState) (now : Nat) (writeOk : Bool) :
    SMState × List PersistEvent × Except SMError Bool :=
  match st.session with
  | none => (st, [], Except.error SMError.noSession)
  | some s =>
    if s.status ≠ SessionStatus.running then
      (st, [], Except.error SMError.notRunning)
    else
      match st.pty with
      | none => (st, [], Except.error SMError.ptyNotInitialized)
      | some _ =>
        if !writeOk then (st, [], Except.error SMError.sendFailed)
        else
          let s1 := { s with last_activity := now }
          ({ st with
              session := some s1,
              command_count := st.command_count + 1,
              store := some s1 },
           [PersistEvent.save s1], Except.ok true)

/-- Source `SessionManager.send_input`: validates session and PTY presence
and status `RUNNING`, writes the raw bytes to the PTY and bumps
`last_activity`.  No persistence call occurs on this path. -/
def send_input (st : SMState) (now : Nat) (writeOk : Bool) :
    SMState × List PersistEvent × Except SMError Bool :=
  match st.session with
  | none => (st, [], Except.error SMError.noSession)
  | some s =>
    if st.pty.isNone then (st, [], Except.error SMError.noSession)
    else if s.status ≠ SessionStatus.running then
      (st, [], Except.error SMError.notRunning)
    else if !writeOk then (st, [], Except.error SMError.sendFailed)
    else
      ({ st with session := some { s with last_activity := now } },
       [], Except.ok true)

/-- Source `SessionManager.resize_terminal`: a no-op when no PTY is attached;
otherwise `PTYSession.resize` sets the kernel window size (returned as
the third component when the PTY is running) and signals the child.
No session-record mutation and no persistence call occurs. -/
def resize_terminal (st : SMState) (cols rows : Nat) :
    SMState × List PersistEvent × Option (Nat × Nat) :=
  match st.pty with
  | none => (st, [], none)
  | some p => (st, [], if p.running then some (cols, rows) else none)

/-! ## Auto-tunnel orchestrator (`src/core/auto_tunnel.py`)

The orchestrator's per-event handler is sequential code; an
orchestrator lifetime is a run over a list of delivered pattern-match
events.  The facade's response to an attempted `create_tunnel` call
(`some tunnel` on success, `none` when the call raises) is carried on
the event.  Every issued facade call is recorded in a trace. -/

/-- Mutable fields of `AutoTunnelOrchestrator`: the handled-port set
and the event subscriber queues (`maxsize=50`). -/
structure OrchState where
  detected_ports : List Nat
  subscribers : List (BQueue Tunnel)
deriving DecidableEq, Repr

/-- A fresh orchestrator: empty handled-port set, no subscribers. -/
def orchNew : OrchState := ⟨[], []⟩

/-- Source `AutoTunnelOrchestrator.subscribe`: a fresh queue of `maxsize=50`. -/
def orchSubscribe (st : OrchState) : OrchState :=
  { st with subscribers := st.subscribers ++ [⟨50, []⟩] }

/-- Source `AutoTunnelOrchestrator._broadcast_tunnel_event`: `put_nowait` to
every subscriber, dropping on `QueueFull`.  The payload stands for the
serialized `WSTunnelMessage` carrying the tunnel. -/
def broadcast_tunnel_event (subs : List (BQueue Tunnel)) (t : Tunnel) :
    List (BQueue Tunnel) :=
  subs.map (fun q => putNowaitDrop q t)

/-- One facade call issued by the orchestrator: the port, and whether
`create_tunnel` succeeded. -/
structure CreateCall where
  port : Nat
  ok : Bool
deriving DecidableEq, Repr

/-- Source `AutoTunnelOrchestrator._on_localhost_detected` run as one
uninterrupted turn (no other handler task scheduled during its
suspension at the awaited `create_tunnel`; `orchTaskStep` below splits
the handler at that suspension point): extract the port from the
matched text (`if not port:` — Python truthiness, so a failed
extraction and an extracted `0` both log and return); ignore a port
already in the handled set; otherwise call the facade's
`create_tunnel`.  On success the port is added to the handled set and
a tunnel-created event is broadcast; on an exception the handler only
logs, leaving the port out of the handled set. -/
def on_localhost_detected (st : OrchState) (text : String)
    (outcome : Option Tunnel) : OrchState × List CreateCall :=
  match extract_port text with
  | none => (st, [])
  | some port =>
    if port = 0 then (st, [])
    else if port ∈ st.detected_ports then (st, [])
    else
      match outcome with
      | some t =>
          ({ detected_ports := port :: st.detected_ports,
             subscribers := broadcast_tunnel_event st.subscribers t },
           [⟨port, true⟩])
      | none => (st, [⟨port, false⟩])

/-- Source `AutoTunnelOrchestrator._on_server_ready`: extract the port from
the same matched text; when a truthy port is found (`if port and port
not in self._detected_ports:`) and not yet handled, delegate to
`_on_localhost_detected` (the delegation is a direct await, running
synchronously up to the inner `create_tunnel` suspension). -/
def on_server_ready (st : OrchState) (text : String)
    (outcome : Option Tunnel) : OrchState × List CreateCall :=
  match extract_port text with
  | none => (st, [])
  | some port =>
    if port = 0 then (st, [])
    else if port ∈ st.detected_ports then (st, [])
    else on_localhost_detected st text outcome

/-- A pattern-match event delivered to the orchestrator: the
`localhost_server` and `listening_on_port` patterns are wired to
`_on_localhost_detected`, `server_ready` to `_on_server_ready`. -/
inductive OrchEvent
  | localhostMatch (text : String) (outcome : Option Tunnel)
  | serverReadyMatch (text : String) (outcome : Option Tunnel)
deriving DecidableEq, Repr

/-- Dispatch one delivered event to its handler. -/
def orchStep (st : OrchState) : OrchEvent → OrchState × List CreateCall
  | OrchEvent.localhostMatch text outcome =>
      on_localhost_detected st text outcome
  | OrchEvent.serverReadyMatch text outcome =>
      on_server_ready st text outcome

/-- One orchestrator lifetime under the SERIALIZED schedule: each
delivered event's handler task runs to completion before the next
begins (no interleaving at the `create_tunnel` suspension); traces of
issued facade calls are concatenated.  The source does not guarantee
this schedule — `initialize` registers callbacks that
`asyncio.create_task` a fresh handler task per pattern match, and
tasks interleave at the await; `orchTaskStep`/`orchSched` below model
that. -/
def orchRun (st : OrchState) : List OrchEvent → OrchState × List CreateCall
  | [] => (st, [])
  | e :: evs =>
      let r := orchStep st e
      let r2 := orchRun r.1 evs
      (r2.1, r.2 ++ r2.2)

/-- No call in the trace targets port `p`. -/
def noCallOn (p : Nat) (tr : List CreateCall) : Bool :=
  tr.all (fun c => c.port ≠ p)

/-- A trace is deduplicated when no successful call is ever followed
by another call (successful or not) for the same port. -/
def dedupOk : List CreateCall → Bool
  | [] => true
  | c :: rest => (!c.ok || noCallOn c.port rest) && dedupOk rest

/-! ### Concurrent handler tasks

`detect_patterns` spawns one asyncio task per matched pattern
(`auto_tunnel.py:139-151`, via `asyncio.create_task`), so several
handler tasks can be live at once.  A handler task runs synchronously
from its start — port extraction, the `if not port:` truthiness
guard, the handled-set membership check — up to
`await self.tunnel_manager.create_tunnel(port)` (`auto_tunnel.py:93`),
where it issues the facade call and suspends; only when it is
resumed with the call's result does it add the port to the handled
set (success) or merely log (exception).  `_on_server_ready` checks
the same conditions and delegates synchronously into
`_on_localhost_detected`, so its task has the same two phases.  A
cooperative schedule is a list of task indices, one per scheduler
turn. -/

/-- A live handler task: not yet run, or suspended at the awaited
`create_tunnel` call (carrying the call's eventual result), or
finished. -/
inductive TaskState
  | spawned (text : String) (outcome : Option Tunnel)
  | awaiting (port : Nat) (outcome : Option Tunnel)
  | done
deriving DecidableEq, Repr

/-- Orchestrator state together with the pool of live handler tasks. -/
structure OrchConfig where
  st : OrchState
  tasks : List TaskState
deriving DecidableEq, Repr

/-- Python `set.add` on the handled-port set: idempotent insert. -/
def insertPort (p : Nat) (l : List Nat) : List Nat :=
  if p ∈ l then l else p :: l

/-- One cooperative scheduler turn running task `i`: a spawned task
runs its synchronous prefix (extract, truthiness guard, handled-set
check) and, if the port is fresh, issues the `create_tunnel` call and
suspends; a suspended task resumes from the await — on success it
adds its port to the handled set and broadcasts the tunnel event, on
an exception it only logs.  Scheduling a finished or absent task does
nothing. -/
def orchTaskStep (cfg : OrchConfig) (i : Nat) :
    OrchConfig × List CreateCall :=
  match cfg.tasks[i]? with
  | some (TaskState.spawned text outcome) =>
    (match extract_port text with
     | none => ({ cfg with tasks := cfg.tasks.set i TaskState.done }, [])
     | some port =>
       if port = 0 then
         ({ cfg with tasks := cfg.tasks.set i TaskState.done }, [])
       else if port ∈ cfg.st.detected_ports then
         ({ cfg with tasks := cfg.tasks.set i TaskState.done }, [])
       else
         ({ cfg with
             tasks := cfg.tasks.set i (TaskState.awaiting port outcome) },
          [⟨port, outcome.isSome⟩]))
  | some (TaskState.awaiting port outcome) =>
    (match outcome with
     | some t =>
         ({ st := { detected_ports := insertPort port cfg.st.detected_ports,
                    subscribers :=
                      broadcast_tunnel_event cfg.st.subscribers t },
            tasks := cfg.tasks.set i TaskState.done }, [])
     | none => ({ cfg with tasks := cfg.tasks.set i TaskState.done }, []))
  | some TaskState.done => (cfg, [])
  | none => (cfg, [])

/-- Run a cooperative schedule (a list of task indices), collecting
the trace of issued facade calls. -/
def orchSched (cfg : OrchConfig) : List Nat → OrchConfig × List CreateCall
  | [] => (cfg, [])
  | i :: rest =>
      let r := orchTaskStep cfg i
      let r2 := orchSched r.1 rest
      (r2.1, r.2 ++ r2.2)

/-! ## Hybrid tunnel facade (`src/core/hybrid_tunnel_manager.py`)

Only the strategy-selection state (`self._is_named`, and which
concrete manager `self.tunnel_manager` is) matters here; each facade
operation dispatches on it and none of them assigns it except
`initialize` on the named-failure path. -/

/-- Which concrete strategy backs the facade. -/
inductive Strategy
  | named
  | quick
deriving DecidableEq, Repr

/-- The facade's strategy-selection state: `_is_named` (true exactly
when `tunnel_manager` is the `NamedTunnelManager`). -/
structure HybridState where
  is_named : Bool
deriving DecidableEq, Repr

/-- Source `HybridTunnelManager.__init__`: named is selected iff
`settings.use_named_tunnels` and the Cloudflare API is configured. -/
def hybridNew (use_named_tunnels : Bool) (cf_configured : Bool) :
    HybridState :=
  ⟨use_named_tunnels && cf_configured⟩

/-- Outcome of the named strategy's `initialize()` when consulted:
success, a `False` return, or a raised exception. -/
inductive InitOutcome
  | ok
  | returnedFalse
  | raised
deriving DecidableEq, Repr

/-- Source `HybridTunnelManager.initialize`: when named is active, a `False`
return or an exception from the named `initialize()` replaces the
manager with a fresh `QuickTunnelManager` and clears `_is_named`;
when quick is active it returns `True` without consulting named. -/
def hybridInitStep (st : HybridState) (namedResult : InitOutcome) :
    HybridState × Bool :=
  if st.is_named then
    match namedResult with
    | InitOutcome.ok => (st, true)
    | InitOutcome.returnedFalse => (⟨false⟩, false)
    | InitOutcome.raised => (⟨false⟩, false)
  else (st, true)

/-- The strategy a facade operation is served by: every operation
branches on `self._is_named`. -/
def servedBy (st : HybridState) : Strategy :=
  if st.is_named then Strategy.named else Strategy.quick

/-- A facade operation within the process lifetime. -/
inductive FacadeOp
  | initStep (o : InitOutcome)
  | createTunnel
  | destroyTunnel
  | destroyAllTunnels
  | getTunnel
  | getTunnelsBySession
  | getActiveTunnels
  | healthCheck
  | shutdown
deriving DecidableEq, Repr

/-- One facade operation: records which strategy serves it.  Only
`initialize` can change the selection; `create_tunnel`,
`destroy_tunnel`, `destroy_all_tunnels`, `get_tunnel`,
`get_tunnels_by_session`, `get_active_tunnels`, `health_check` and
`shutdown` all dispatch on `_is_named` and never assign it. -/
def hybridStep (st : HybridState) : FacadeOp → HybridState × Strategy
  | FacadeOp.initStep o => ((hybridInitStep st o).1, servedBy st)
  | _ => (st, servedBy st)

/-- A sequence of facade operations, with the trace of serving
strategies. -/
def hybridRun (st : HybridState) : List FacadeOp → HybridState × List Strategy
  | [] => (st, [])
  | op :: ops =>
      let r := hybridStep st op
      let r2 := hybridRun r.1 ops
      (r2.1, r.2 :: r2.2)

/-! ## Named tunnel manager (`src/core/named_tunnel_manager.py`)

State: the port-keyed tunnel dict, the ingress list of the config
file, the long-lived `cloudflared` pid and the session manager it
mutates.  External effects (DNS call, config write, reload signal,
metadata save) are emitted as events; the DNS result is a parameter
(`some url` when `create_cname_for_port` returns a URL, `none` when
it fails and the synthesized fallback URL is used). -/

/-- One ingress rule of the config document; the catch-all rule has
no hostname. -/
structure IngressRule where
  hostname : Option String
  service : String
deriving DecidableEq, Repr

/-- External effects of `add_port_mapping`. -/
inductive NamedEvent
  | dnsCreatePort (port : Nat)
  | writeConfig (ingress : List IngressRule)
  | reloadSignal (pid : Nat)
  | saveMetadata (s : Session)
deriving DecidableEq, Repr

/-- Source `NamedTunnelManager` raises `ValueError("No active session")`. -/
inductive NamedErr
  | noActiveSession
deriving DecidableEq, Repr

/-- Mutable state of `NamedTunnelManager` (plus the session manager
it holds a reference to). -/
structure NamedState where
  sm : SMState
  tunnels : List (Nat × Tunnel)
  ingress : List IngressRule
  tunnel_process : Option Nat
  domain : String
deriving DecidableEq, Repr

/-- Source `self.tunnels[port]` lookup in the port-keyed dict. -/
def lookupPort (l : List (Nat × Tunnel)) (p : Nat) : Option Tunnel :=
  (l.find? (fun e => e.1 = p)).map (fun e => e.2)

/-- Python `list.insert(-1, r)`: insert immediately before the last
element (the catch-all rule). -/
def insertBeforeLast (l : List IngressRule) (r : IngressRule) :
    List IngressRule :=
  l.take (l.length - 1) ++ r :: l.drop (l.length - 1)

/-- Source `NamedTunnelManager.add_port_mapping`: raises without an active
session; returns the stored tunnel unchanged when the port is already
mapped; otherwise resolves the public URL (DNS, with a synthesized
fallback), inserts an ingress rule before the catch-all, rewrites the
config, signals a reload when the tunnel process pid is set (Python
truthiness: pid `0` counts as unset), records the tunnel under the
port, appends it to the session and persists the session metadata. -/
def add_port_mapping (st : NamedState) (port : Nat)
    (cname : Option String) (now : Nat) :
    NamedState × List NamedEvent × Except NamedErr Tunnel :=
  if !has_active_session st.sm then
    (st, [], Except.error NamedErr.noActiveSession)
  else
    match st.sm.session with
    | none => (st, [], Except.error NamedErr.noActiveSession)
    | some session =>
      match lookupPort st.tunnels port with
      | some t => (st, [], Except.ok t)
      | none =>
        let public_url :=
          match cname with
          | some u => u
          | none => "https://" ++ toString port ++ "." ++ st.domain
        let newRule : IngressRule :=
          ⟨some (toString port ++ "." ++ st.domain),
           "http://127.0.0.1:" ++ toString port⟩
        let ingress1 := insertBeforeLast st.ingress newRule
        let reloadEv : List NamedEvent :=
          match st.tunnel_process with
          | some pid => if pid ≠ 0 then [NamedEvent.reloadSignal pid] else []
          | none => []
        let procPid : Option Nat :=
          match st.tunnel_process with
          | some pid => if pid ≠ 0 then some pid else none
          | none => none
        let tunnel : Tunnel :=
          ⟨"tun_" ++ toString port ++ "_" ++ toString now, session.id,
           port, public_url, now, TunnelStatus.active, procPid⟩
        let session1 := { session with tunnels := session.tunnels ++ [tunnel] }
        ({ st with
            sm := { st.sm with session := some session1, store := some session1 },
            tunnels := st.tunnels ++ [(port, tunnel)],
            ingress := ingress1 },
         NamedEvent.dnsCreatePort port :: NamedEvent.writeConfig ingress1 ::
           reloadEv ++ [NamedEvent.saveMetadata session1],
         Except.ok tunnel)

deriving instance DecidableEq for Except

/-! ## Concrete fixtures

Concrete states used to instantiate theorems and exhibit
counterexamples. -/

/-- A session record as restored from metadata: status `RUNNING`,
recorded pid 42. -/
def restoredSession : Session :=
  ⟨"s1", some 42, "w", SessionStatus.running, 0, 0, []⟩

/-- The registry state after startup restore from a live pid: session
`RUNNING`, no PTY object attached, metadata file still present. -/
def restoredState : SMState :=
  ⟨some restoredSession, none, [], 0, [], some restoredSession⟩

/-- A fully active registry state: session `RUNNING` with an attached
running PTY, snapshot persisted. -/
def activeState : SMState :=
  ⟨some restoredSession, some ⟨some 42, true⟩, [], 0, [], some restoredSession⟩

/-- A sample tunnel object, as the facade would return it. -/
def sampleTunnel : Tunnel :=
  ⟨"t1", "s1", 8080, "https://x.example", 0, TunnelStatus.active, none⟩

/-- The tunnel returned by the first facade call of the race below. -/
def raceTunnelA : Tunnel :=
  ⟨"tA", "s1", 3000, "https://a.trycloudflare.com", 0,
   TunnelStatus.active, some 101⟩

/-- The tunnel returned by the second facade call of the race below. -/
def raceTunnelB : Tunnel :=
  ⟨"tB", "s1", 3000, "https://b.trycloudflare.com", 0,
   TunnelStatus.active, some 102⟩

/-- The task pool spawned by `detect_patterns` on the single line
`"Server running at http://localhost:3000"`: the line matches both
`localhost_server` (matched text `"http://localhost:3000"`) and
`listening_on_port` (matched text `"running at http://localhost:3000"`),
and both patterns are wired to `_on_localhost_detected`, so two
handler tasks are created for the same port 3000; the facade call
succeeds for each. -/
def raceConfig : OrchConfig :=
  ⟨orchNew,
   [TaskState.spawned "http://localhost:3000" (some raceTunnelA),
    TaskState.spawned "running at http://localhost:3000" (some raceTunnelB)]⟩

/-- A named tunnel manager just after `initialize`: no port mapped,
root ingress rule plus catch-all, live `cloudflared` pid 7. -/
def namedStart : NamedState :=
  ⟨activeState, [],
   [⟨some "d", "http://127.0.0.1:8000"⟩, ⟨none, "http_status:404"⟩],
   some 7, "d"⟩

/-- The tunnel created by the first `add_port_mapping 3000` on
`namedStart` (DNS returned `"u"`, timestamp 1). -/
def namedTunnel3000 : Tunnel :=
  ⟨"tun_3000_1", "s1", 3000, "u", 1, TunnelStatus.active, some 7⟩

/-- The session after that first mapping. -/
def namedSession1 : Session :=
  { restoredSession with tunnels := [namedTunnel3000] }

/-- The named manager state after that first mapping. -/
def namedAfter : NamedState :=
  ⟨⟨some namedSession1, some ⟨some 42, true⟩, [], 0, [], some namedSession1⟩,
   [(3000, namedTunnel3000)],
   [⟨some "d", "http://127.0.0.1:8000"⟩,
    ⟨some "3000.d", "http://127.0.0.1:3000"⟩,
    ⟨none, "http_status:404"⟩],
   some 7, "d"⟩

/-- The external effects of that first mapping. -/
def namedEvents : List NamedEvent :=
  [NamedEvent.dnsCreatePort 3000,
   NamedEvent.writeConfig
     [⟨some "d", "http://127.0.0.1:8000"⟩,
      ⟨some "3000.d", "http://127.0.0.1:3000"⟩,
      ⟨none, "http_status:404"⟩],
   NamedEvent.reloadSignal 7,
   NamedEvent.saveMetadata namedSession1]

/-! ## Theorems -/

/-- C9: the scanner classifies `"Server running at http://localhost:3000"`
as a `localhost_server` match with extracted port 3000;
`"App listening on port 8080"` is no `localhost_server` match but a
`listening_on_port` match with extracted port 8080; a line with
neither phrasing (`"Hello, world"`) yields no port; and the
port-extraction helper tries the `localhost_server` pattern first,
returning its captured port when it matches and falling back to the
`listening_on_port` capture otherwise. -/
theorem C9_scanner_classification :
    (localhostMatches "Server running at http://localhost:3000" = true ∧
     extract_port "Server running at http://localhost:3000" = some 3000) ∧
    (localhostMatches "App listening on port 8080" = false ∧
     listeningMatches "App listening on port 8080" = true ∧
     extract_port "App listening on port 8080" = some 8080) ∧
    extract_port "Hello, world" = none ∧
    (∀ s p, searchLocalhost s.data = some p → extract_port s = some p) ∧
    (∀ s, searchLocalhost s.data = none →
        extract_port s = searchListening s.data) := by
  refine ⟨⟨by decide, by decide⟩, ⟨by decide, by decide, by decide⟩,
    by decide, ?_, ?_⟩
  · intro s p h
    simp [extract_port, h]
  · intro s h
    simp [extract_port, h]

/-- Witness for C9: the port-ordering clause applied to a concrete
line matched by the `localhost_server` pattern. -/
theorem C9_scanner_classification_witness :
    extract_port "x http://localhost:81" = some 81 :=
  C9_scanner_classification.2.2.2.1 "x http://localhost:81" 81 (by decide)

/-- C3: the log fan-out hub's `broadcast` delivers the message to
exactly the queues subscribed at call time — the subscriber list is
preserved in length, a full queue drops the message and stays
unchanged, a non-full queue receives it appended — and the outcome
for one subscriber depends only on that subscriber's queue, so a slow
consumer never affects the producer or the other consumers.  The PTY
output hub delivers the base64-encoded chunk to every subscriber; its
queues are unbounded, so nothing is ever dropped or blocked there. -/
theorem C3_broadcast_fanout :
    (∀ (subs : List (BQueue String)) (msg : String),
        (broadcast_log subs msg).length = subs.length) ∧
    (∀ (subs : List (BQueue String)) (msg : String) (i : Nat)
        (q : BQueue String), subs[i]? = some q → qFull q = true →
        (broadcast_log subs msg)[i]? = some q) ∧
    (∀ (subs : List (BQueue String)) (msg : String) (i : Nat)
        (q : BQueue String), subs[i]? = some q → qFull q = false →
        (broadcast_log subs msg)[i]? =
          some { q with items := q.items ++ [msg] }) ∧
    (∀ (subs subs2 : List (BQueue String)) (msg : String) (i : Nat),
        subs[i]? = subs2[i]? →
        (broadcast_log subs msg)[i]? = (broadcast_log subs2 msg)[i]?) ∧
    (∀ (subs : List (BQueue String)) (data : List Nat) (i : Nat)
        (q : BQueue String), subs[i]? = some q →
        (handle_pty_output subs data)[i]? =
          some { q with items := q.items ++ [String.mk (b64Encode data)] }) := by
  refine ⟨?_, ?_, ?_, ?_, ?_⟩
  · intro subs msg
    simp [broadcast_log]
  · intro subs msg i q hq hfull
    simp [broadcast_log, List.getElem?_map, hq, putNowaitDrop, hfull]
  · intro subs msg i q hq hfull
    simp [broadcast_log, List.getElem?_map, hq, putNowaitDrop, hfull]
  · intro subs subs2 msg i h
    simp [broadcast_log, List.getElem?_map, h]
  · intro subs data i q hq
    simp [handle_pty_output, List.getElem?_map, hq, qputUnbounded]

/-- Witness for C3: a broadcast over one full and one empty queue
drops only at the full queue. -/
theorem C3_broadcast_fanout_witness :
    (broadcast_log [⟨1, ["a"]⟩, ⟨100, []⟩] "m")[0]? = some ⟨1, ["a"]⟩ ∧
    (broadcast_log [⟨1, ["a"]⟩, ⟨100, []⟩] "m")[1]? = some ⟨100, ["m"]⟩ :=
  ⟨C3_broadcast_fanout.2.1 [⟨1, ["a"]⟩, ⟨100, []⟩] "m" 0 ⟨1, ["a"]⟩
      (by decide) (by decide),
   C3_broadcast_fanout.2.2.1 [⟨1, ["a"]⟩, ⟨100, []⟩] "m" 1 ⟨100, []⟩
      (by decide) (by decide)⟩

/-- C5 counterexample: on a running session whose child is still
alive, `stop` emits `SIGTERM`, an unbounded `waitpid` and the
descriptor close — and no forced kill, contradicting the claimed
bounded grace period with `SIGKILL` escalation. -/
theorem C5_stop_counterexample :
    (ptyStop ⟨true, some 42, some 3, true⟩ true).2 =
      [PTYAction.cancelReader, PTYAction.signalTerm 42,
       PTYAction.waitPid 42, PTYAction.closeFd 3] ∧
    PTYAction.signalKill 42 ∉ (ptyStop ⟨true, some 42, some 3, true⟩ true).2 := by
  constructor
  · decide
  · decide

/-- C5 (amended): `stop` is idempotent — a second `stop` is a no-op —
and an effective stop requests graceful termination with `SIGTERM`,
waits without bound for the child to exit when it is still alive (no
grace-period timeout and no forced-kill escalation exists on any
path), and releases the parent-side descriptor. -/
theorem C5_stop_idempotent_graceful :
    (∀ (st : PTYState) (a b : Bool),
        ptyStop (ptyStop st a).1 b = ((ptyStop st a).1, [])) ∧
    (∀ (st : PTYState) (a : Bool) (p : Nat),
        PTYAction.signalKill p ∉ (ptyStop st a).2) ∧
    (∀ (st : PTYState) (a : Bool), st.running = true →
        (ptyStop st a).1.master_fd = none) ∧
    (∀ (st : PTYState) (pid fd : Nat), st.running = true →
        st.pid = some pid → pid ≠ 0 → st.master_fd = some fd →
        (ptyStop st true).2 =
          (if st.reader_task then [PTYAction.cancelReader] else []) ++
          [PTYAction.signalTerm pid, PTYAction.waitPid pid,
           PTYAction.closeFd fd]) := by
  refine ⟨?_, ?_, ?_, ?_⟩
  · intro st a b
    unfold ptyStop
    split
    · simp_all [ptyStop]
    · simp [ptyStop]
  · intro st a p
    rcases st with ⟨r, p0, f0, rt⟩
    cases r
    · simp [ptyStop]
    · rcases p0 with _ | pid
      · cases rt <;> rcases f0 with _ | fd <;> simp [ptyStop]
      · by_cases hz : pid = 0
        · cases rt <;> rcases f0 with _ | fd <;> simp [ptyStop, hz]
        · cases a <;> cases rt <;> rcases f0 with _ | fd <;>
            simp [ptyStop, hz]
  · intro st a h
    unfold ptyStop
    simp [h]
  · intro st pid fd hr hp hz hf
    rcases st with ⟨r, p0, f0, rt⟩
    simp only at hr hp hf
    subst hr hp hf
    cases rt <;> simp [ptyStop, hz]

/-- Witness for C5: second stop after an effective stop is a no-op,
and the trace of the effective stop on a live child. -/
theorem C5_stop_idempotent_graceful_witness :
    ptyStop (ptyStop ⟨true, some 42, some 3, true⟩ true).1 false =
      ((ptyStop ⟨true, some 42, some 3, true⟩ true).1, []) ∧
    (ptyStop ⟨true, some 42, some 3, true⟩ true).2 =
      [PTYAction.cancelReader, PTYAction.signalTerm 42,
       PTYAction.waitPid 42, PTYAction.closeFd 3] :=
  ⟨C5_stop_idempotent_graceful.1 ⟨true, some 42, some 3, true⟩ true false,
   by
    have h := C5_stop_idempotent_graceful.2.2.2 ⟨true, some 42, some 3, true⟩
      42 3 rfl rfl (by decide) rfl
    simpa using h⟩

/-- C1 counterexample: in the state restored from a live persisted
pid the session has status `RUNNING`, yet `create_session` does not
fail with the already-running validation error — it succeeds — so "a
session with status Running exists" does not suffice for the guard to
fire. -/
theorem C1_create_session_counterexample :
    restoredState.session.map Session.status = some SessionStatus.running ∧
    (create_session restoredState "s2" (some "w2") "wd" (some 99) 5).2.2 =
      Except.ok ⟨"s2", some 99, "w2", SessionStatus.running, 5, 5, []⟩ := by
  constructor
  · decide
  · decide

/-- C1 (amended): when an active session exists — a session with
status `RUNNING` *and an attached Terminal Process* — `create_session`
fails with the validation error and leaves the state (and durable
storage) unchanged; when no such active session exists it never fails
on that ground; and the registry holds at most one session record, so
at most one session is `RUNNING` at any time. -/
theorem C1_single_active_session :
    (∀ (st : SMState) (sid : String) (wd : Option String) (swd : String)
        (spawn : Option Nat) (now : Nat),
        has_active_session st = true →
        create_session st sid wd swd spawn now =
          (st, [], Except.error SMError.alreadyRunning)) ∧
    (∀ (st : SMState) (sid : String) (wd : Option String) (swd : String)
        (spawn : Option Nat) (now : Nat),
        has_active_session st = false →
        (create_session st sid wd swd spawn now).2.2 ≠
          Except.error SMError.alreadyRunning) ∧
    (∀ (st : SMState) (s1 s2 : Session),
        st.session = some s1 → st.session = some s2 → s1 = s2) := by
  refine ⟨?_, ?_, ?_⟩
  · intro st sid wd swd spawn now h
    simp [create_session, h]
  · intro st sid wd swd spawn now h
    simp only [create_session, h, Bool.false_eq_true, if_false]
    cases spawn <;> simp
  · intro st s1 s2 h1 h2
    rw [h1] at h2
    exact Option.some.inj h2

/-- Witness for C1: `create_session` on the fully active state fails
with the validation error and changes nothing. -/
theorem C1_single_active_session_witness :
    create_session activeState "s2" (some "w2") "wd" (some 99) 5 =
      (activeState, [], Except.error SMError.alreadyRunning) :=
  C1_single_active_session.1 activeState "s2" (some "w2") "wd" (some 99) 5
    (by decide)

/-- C4: startup restore — a persisted record whose pid is dead is
discarded (the metadata file is deleted, no session and no active
session exists after startup); a record whose pid is live is restored
with status `RUNNING`, all other fields preserved. -/
theorem C4_startup_restore :
    (∀ (r : Session) (alive : Nat → Bool) (pid : Nat),
        r.pty_pid = some pid → pid ≠ 0 → alive pid = false →
        load_session_metadata (some r) alive =
          (⟨none, none, [], 0, [], none⟩, [PersistEvent.deleteFile]) ∧
        has_active_session (load_session_metadata (some r) alive).1 = false) ∧
    (∀ (r : Session) (alive : Nat → Bool) (pid : Nat),
        r.pty_pid = some pid → pid ≠ 0 → alive pid = true →
        (load_session_metadata (some r) alive).1.session =
          some { r with status := SessionStatus.running }) := by
  constructor
  · intro r alive pid hp hz ha
    constructor
    · simp [load_session_metadata, hp, hz, ha]
    · simp [load_session_metadata, hp, hz, ha, has_active_session]
  · intro r alive pid hp hz ha
    simp [load_session_metadata, hp, hz, ha]

/-- Witness for C4: a record with pid 42 restores to `RUNNING` when
42 is alive, and is discarded when probing finds nothing alive. -/
theorem C4_startup_restore_witness :
    load_session_metadata (some restoredSession) (fun _ => false) =
      (⟨none, none, [], 0, [], none⟩, [PersistEvent.deleteFile]) ∧
    (load_session_metadata (some restoredSession)
        (fun p => p = 42)).1.session =
      some { restoredSession with status := SessionStatus.running } :=
  ⟨(C4_startup_restore.1 restoredSession (fun _ => false) 42 rfl
      (by decide) rfl).1,
   C4_startup_restore.2 restoredSession (fun p => p = 42) 42 rfl
      (by decide) (by decide)⟩

/-- C10: a session restored from a live pid carries status `RUNNING`
but no attached PTY, so `has_active_session` is false for it; a
subsequent `create_session` therefore does not raise — it deletes the
restored session's persisted metadata and replaces the session with a
newly created one, persisting the new snapshot. -/
theorem C10_restored_session_replaced :
    ∀ (r : Session) (alive : Nat → Bool) (pid : Nat) (sid wd swd : String)
      (np now : Nat),
      r.pty_pid = some pid → pid ≠ 0 → alive pid = true →
      (load_session_metadata (some r) alive).1.session.map Session.status =
          some SessionStatus.running ∧
      (load_session_metadata (some r) alive).1.pty = none ∧
      has_active_session (load_session_metadata (some r) alive).1 = false ∧
      create_session (load_session_metadata (some r) alive).1 sid (some wd)
          swd (some np) now =
        ({ session := some ⟨sid, some np, wd, SessionStatus.running, now, now, []⟩,
           pty := some ⟨some np, true⟩,
           log_buffer := [],
           command_count := 0,
           output_subscribers := [],
           store := some ⟨sid, some np, wd, SessionStatus.running, now, now, []⟩ },
         [PersistEvent.deleteFile,
          PersistEvent.save ⟨sid, some np, wd, SessionStatus.running, now, now, []⟩],
         Except.ok ⟨sid, some np, wd, SessionStatus.running, now, now, []⟩) := by
  intro r alive pid sid wd swd np now hp hz ha
  refine ⟨?_, ?_, ?_, ?_⟩
  · simp [load_session_metadata, hp, hz, ha]
  · simp [load_session_metadata, hp, hz, ha]
  · simp [load_session_metadata, hp, hz, ha, has_active_session]
  · simp [load_session_metadata, hp, hz, ha, create_session,
      has_active_session]

/-- Witness for C10: the concrete restored record with live pid 42 is
replaced by the new session `"s2"`. -/
theorem C10_restored_session_replaced_witness :
    create_session (load_session_metadata (some restoredSession)
        (fun p => p = 42)).1 "s2" (some "w2") "wd" (some 99) 5 =
      ({ session := some ⟨"s2", some 99, "w2", SessionStatus.running, 5, 5, []⟩,
         pty := some ⟨some 99, true⟩,
         log_buffer := [],
         command_count := 0,
         output_subscribers := [],
         store := some ⟨"s2", some 99, "w2", SessionStatus.running, 5, 5, []⟩ },
       [PersistEvent.deleteFile,
        PersistEvent.save ⟨"s2", some 99, "w2", SessionStatus.running, 5, 5, []⟩],
       Except.ok ⟨"s2", some 99, "w2", SessionStatus.running, 5, 5, []⟩) :=
  (C10_restored_session_replaced restoredSession (fun p => p = 42) 42
    "s2" "w2" "wd" 99 5 rfl (by decide) (by decide)).2.2.2

/-- C6 counterexample: on a fully active state, `send_input` succeeds
and mutates the session (`last_activity`) but performs no persistence
— afterwards the durable snapshot disagrees with the in-memory
session — and `resize` performs no persistence either. -/
theorem C6_persistence_counterexample :
    (send_input activeState 5 true).2.2 = Except.ok true ∧
    (send_input activeState 5 true).2.1 = [] ∧
    (send_input activeState 5 true).1.store ≠
      (send_input activeState 5 true).1.session ∧
    (resize_terminal activeState 100 40).2.1 = [] := by
  refine ⟨by decide, by decide, by decide, by decide⟩

/-- C6 (amended): `create_session` and `send_command` persist a full
snapshot of the resulting session state before returning (the last
durable write is the snapshot of the returned/current session);
`destroy_session` removes the persisted record and writes no
snapshot; `send_input` (raw input, which updates last-activity in
memory only) and `resize` perform no durable write at all. -/
theorem C6_persistence_after_mutation :
    (∀ (st : SMState) (sid : String) (wd : Option String) (swd : String)
        (spawn : Option Nat) (now : Nat) (sess : Session),
        (create_session st sid wd swd spawn now).2.2 = Except.ok sess →
        (create_session st sid wd swd spawn now).1.store = some sess ∧
        (create_session st sid wd swd spawn now).2.1.getLast? =
          some (PersistEvent.save sess)) ∧
    (∀ (st : SMState) (now : Nat) (w : Bool),
        (send_command st now w).2.2 = Except.ok true →
        ∃ s1, (send_command st now w).1.session = some s1 ∧
          (send_command st now w).1.store = some s1 ∧
          (send_command st now w).2.1 = [PersistEvent.save s1]) ∧
    (∀ st : SMState, (destroy_session st).2.2 = Except.ok true →
        (destroy_session st).1.store = none ∧
        ∀ s, PersistEvent.save s ∉ (destroy_session st).2.1) ∧
    (∀ (st : SMState) (now : Nat) (w : Bool),
        (send_input st now w).2.1 = []) ∧
    (∀ (st : SMState) (c r : Nat), (resize_terminal st c r).2.1 = []) := by
  refine ⟨?_, ?_, ?_, ?_, ?_⟩
  · intro st sid wd swd spawn now sess h
    by_cases ha : has_active_session st
    · simp [create_session, ha] at h
    · cases spawn with
      | none => simp [create_session, ha] at h
      | some pid =>
          simp only [create_session, ha, Bool.false_eq_true, if_false] at h ⊢
          simp only [Except.ok.injEq] at h
          subst h
          simp [List.getLast?_concat]
  · intro st now w h
    match hs : st.session with
    | none => simp [send_command, hs] at h
    | some s =>
        by_cases hr : s.status = SessionStatus.running
        · match hpty : st.pty with
          | none => simp [send_command, hs, hr, hpty] at h
          | some p =>
              cases w with
              | false => simp [send_command, hs, hr, hpty] at h
              | true =>
                  refine ⟨{ s with last_activity := now }, ?_, ?_, ?_⟩ <;>
                    simp [send_command, hs, hr, hpty]
        · simp [send_command, hs, hr] at h
  · intro st h
    match hs : st.session with
    | none => simp [destroy_session, hs] at h
    | some s =>
        constructor
        · simp [destroy_session, hs]
        · intro s2
          by_cases hst : st.store.isSome <;> simp [destroy_session, hs, hst]
  · intro st now w
    match hs : st.session with
    | none => simp [send_input, hs]
    | some s =>
        by_cases hpty : st.pty.isNone <;>
          by_cases hr : s.status = SessionStatus.running <;>
            cases w <;> simp [send_input, hs, hpty, hr]
  · intro st c r
    match hp : st.pty with
    | none => simp [resize_terminal, hp]
    | some p => simp [resize_terminal, hp]

/-- Witness for C6: the `send_command` clause on the fully active
state — the snapshot written is exactly the mutated session. -/
theorem C6_persistence_after_mutation_witness :
    ∃ s1, (send_command activeState 5 true).1.session = some s1 ∧
      (send_command activeState 5 true).1.store = some s1 ∧
      (send_command activeState 5 true).2.1 = [PersistEvent.save s1] :=
  C6_persistence_after_mutation.2.1 activeState 5 true (by decide)

/-! ### Orchestrator lemmas -/

/-- The handled-port set only grows across one handler run. -/
theorem old_detected_mono (st : OrchState) (text : String)
    (o : Option Tunnel) (p : Nat) (h : p ∈ st.detected_ports) :
    p ∈ (on_localhost_detected st text o).1.detected_ports := by
  unfold on_localhost_detected
  cases hx : extract_port text with
  | none => simpa using h
  | some port =>
    by_cases h0 : port = 0
    · simpa [h0] using h
    · by_cases hm : port ∈ st.detected_ports
      · simpa [h0, hm] using h
      · cases o with
        | none => simpa [h0, hm] using h
        | some t => simp [h0, hm]; exact Or.inr h

/-- A handler never issues a call for a port already handled. -/
theorem old_calls_avoid (st : OrchState) (text : String)
    (o : Option Tunnel) (p : Nat) (h : p ∈ st.detected_ports) :
    ∀ c ∈ (on_localhost_detected st text o).2, c.port ≠ p := by
  unfold on_localhost_detected
  cases hx : extract_port text with
  | none => simp
  | some port =>
    by_cases h0 : port = 0
    · simp [h0]
    · by_cases hm : port ∈ st.detected_ports
      · simp [h0, hm]
      · cases o with
        | none =>
            simp [h0, hm]
            intro hp
            exact hm (hp ▸ h)
        | some t =>
            simp [h0, hm]
            intro hp
            exact hm (hp ▸ h)

/-- Source `orchStep` versions of the two lemmas above. -/
theorem orchStep_detected_mono (st : OrchState) (e : OrchEvent) (p : Nat)
    (h : p ∈ st.detected_ports) :
    p ∈ (orchStep st e).1.detected_ports := by
  cases e with
  | localhostMatch text o => exact old_detected_mono st text o p h
  | serverReadyMatch text o =>
      simp only [orchStep, on_server_ready]
      cases hx : extract_port text with
      | none => simpa using h
      | some port =>
        by_cases h0 : port = 0
        · simpa [h0] using h
        · by_cases hm : port ∈ st.detected_ports
          · simpa [h0, hm] using h
          · simpa [h0, hm] using old_detected_mono st text o p h

/-- Source `orchStep` never issues a call for an already-handled port. -/
theorem orchStep_calls_avoid (st : OrchState) (e : OrchEvent) (p : Nat)
    (h : p ∈ st.detected_ports) :
    ∀ c ∈ (orchStep st e).2, c.port ≠ p := by
  cases e with
  | localhostMatch text o => exact old_calls_avoid st text o p h
  | serverReadyMatch text o =>
      simp only [orchStep, on_server_ready]
      cases hx : extract_port text with
      | none => simp
      | some port =>
        by_cases h0 : port = 0
        · simp [h0]
        · by_cases hm : port ∈ st.detected_ports
          · simp [h0, hm]
          · simpa [h0, hm] using old_calls_avoid st text o p h

/-- Along a whole run, no call ever targets a port that was already
in the handled set at the start. -/
theorem orchRun_calls_avoid (evs : List OrchEvent) :
    ∀ (st : OrchState) (p : Nat), p ∈ st.detected_ports →
      ∀ c ∈ (orchRun st evs).2, c.port ≠ p := by
  induction evs with
  | nil => intro st p _ c hc; simp [orchRun] at hc
  | cons e evs ih =>
      intro st p hp c hc
      simp only [orchRun, List.mem_append] at hc
      cases hc with
      | inl h1 => exact orchStep_calls_avoid st e p hp c h1
      | inr h2 =>
          exact ih (orchStep st e).1 p (orchStep_detected_mono st e p hp) c h2

/-- A successful call in a step leaves its port in the handled set. -/
theorem orchStep_success_detected (st : OrchState) (e : OrchEvent) (p : Nat)
    (h : (⟨p, true⟩ : CreateCall) ∈ (orchStep st e).2) :
    p ∈ (orchStep st e).1.detected_ports := by
  have core : ∀ (text : String) (o : Option Tunnel),
      (⟨p, true⟩ : CreateCall) ∈ (on_localhost_detected st text o).2 →
      p ∈ (on_localhost_detected st text o).1.detected_ports := by
    intro text o hm
    unfold on_localhost_detected at hm ⊢
    cases hx : extract_port text with
    | none => simp [hx] at hm
    | some port =>
      by_cases h0 : port = 0
      · simp [hx, h0] at hm
      · by_cases hmem : port ∈ st.detected_ports
        · simp [hx, h0, hmem] at hm
        · cases o with
          | none => simp [hx, h0, hmem] at hm
          | some t =>
              simp [hx, h0, hmem] at hm ⊢
              exact Or.inl hm
  cases e with
  | localhostMatch text o => exact core text o h
  | serverReadyMatch text o =>
      simp only [orchStep, on_server_ready] at h ⊢
      cases hx : extract_port text with
      | none => simp [hx] at h
      | some port =>
        by_cases h0 : port = 0
        · simp [hx, h0] at h
        · by_cases hmem : port ∈ st.detected_ports
          · simp [hx, h0, hmem] at h
          · simp only [hx, h0, hmem, if_neg, if_false] at h ⊢
            exact core text o h

/-- A step issues no call or exactly one call. -/
theorem orchStep_calls_shape (st : OrchState) (e : OrchEvent) :
    (orchStep st e).2 = [] ∨ ∃ c, (orchStep st e).2 = [c] := by
  have core : ∀ (text : String) (o : Option Tunnel),
      (on_localhost_detected st text o).2 = [] ∨
      ∃ c, (on_localhost_detected st text o).2 = [c] := by
    intro text o
    unfold on_localhost_detected
    cases hx : extract_port text with
    | none => exact Or.inl rfl
    | some port =>
      by_cases h0 : port = 0
      · simp [h0]
      · by_cases hm : port ∈ st.detected_ports
        · simp [h0, hm]
        · cases o with
          | none => simp [h0, hm]
          | some t => simp [h0, hm]
  cases e with
  | localhostMatch text o => exact core text o
  | serverReadyMatch text o =>
      simp only [orchStep, on_server_ready]
      cases hx : extract_port text with
      | none => exact Or.inl rfl
      | some port =>
        by_cases h0 : port = 0
        · simp [h0]
        · by_cases hm : port ∈ st.detected_ports
          · simp [h0, hm]
          · simpa [h0, hm] using core text o

/-- Every run from any state produces a deduplicated call trace. -/
theorem orchRun_dedupOk (evs : List OrchEvent) :
    ∀ st : OrchState, dedupOk (orchRun st evs).2 = true := by
  induction evs with
  | nil => intro st; rfl
  | cons e evs ih =>
      intro st
      simp only [orchRun]
      rcases orchStep_calls_shape st e with h0 | ⟨c, h1⟩
      · simpa [h0] using ih (orchStep st e).1
      · simp only [h1, List.cons_append, List.nil_append, dedupOk,
          Bool.and_eq_true]
        refine ⟨?_, ih (orchStep st e).1⟩
        by_cases hok : c.ok
        · have hmem : (⟨c.port, true⟩ : CreateCall) ∈ (orchStep st e).2 := by
            rw [h1]
            have : c = ⟨c.port, true⟩ := by
              cases c
              simp_all
            simp [← this]
          have hdet := orchStep_success_detected st e c.port hmem
          have havoid := orchRun_calls_avoid evs (orchStep st e).1 c.port hdet
          simp only [noCallOn, List.all_eq_true, Bool.or_eq_true]
          right
          intro c2 hc2
          simpa using havoid c2 hc2
        · simp [hok]

/-- A single handler task scheduled for both its turns back to back
(issue the call, then immediately resume) behaves exactly like the
serialized handler `on_localhost_detected`. -/
theorem orchTask_serial_eq_handler (st : OrchState) (text : String)
    (outcome : Option Tunnel) :
    orchSched ⟨st, [TaskState.spawned text outcome]⟩ [0, 0] =
      (⟨(on_localhost_detected st text outcome).1, [TaskState.done]⟩,
       (on_localhost_detected st text outcome).2) := by
  cases hx : extract_port text with
  | none => simp [orchSched, orchTaskStep, on_localhost_detected, hx]
  | some port =>
    by_cases h0 : port = 0
    · simp [orchSched, orchTaskStep, on_localhost_detected, hx, h0]
    · by_cases hm : port ∈ st.detected_ports
      · simp [orchSched, orchTaskStep, on_localhost_detected, hx, h0, hm]
      · cases outcome with
        | none =>
            simp [orchSched, orchTaskStep, on_localhost_detected,
              hx, h0, hm]
        | some t =>
            simp [orchSched, orchTaskStep, on_localhost_detected,
              hx, h0, hm, insertPort]

/-- C2 counterexample: the line
`"Server running at http://localhost:3000"` matches both the
`localhost_server` and `listening_on_port` patterns, which are both
wired to `_on_localhost_detected`, so `detect_patterns` spawns two
handler tasks for port 3000 in one chunk (their matched texts both
extract 3000).  Under the cooperative schedule that runs both tasks
up to their `create_tunnel` suspension before either resumes — both
membership checks see the port unhandled — the orchestrator issues
two create-tunnel calls for port 3000 within one lifetime, refuting
the claimed per-port deduplication. -/
theorem C2_orchestrator_race_counterexample :
    localhostMatches "Server running at http://localhost:3000" = true ∧
    listeningMatches "Server running at http://localhost:3000" = true ∧
    extract_port "http://localhost:3000" = some 3000 ∧
    extract_port "running at http://localhost:3000" = some 3000 ∧
    (orchSched raceConfig [0, 1, 0, 1]).2 =
      [⟨3000, true⟩, ⟨3000, true⟩] ∧
    dedupOk (orchSched raceConfig [0, 1, 0, 1]).2 = false := by
  refine ⟨by decide, by decide, by decide, by decide, by decide, by decide⟩

/-- C2 (amended): a handler task never issues a create-tunnel call
for a port that is in the handled set when its check runs (nor for a
falsy extracted port); the handled set is extended only when an
issued call is resumed with success; a failed attempt changes no
orchestrator state, so the port stays retryable, and a fresh task for
an unhandled port does issue a call.  Under the serialized schedule —
each handler task runs to completion before the next starts, which is
exactly the uninterrupted-handler semantics (bridge clause) — the
call trace of a lifetime is deduplicated: after a success for a port,
no further call for it is ever issued.  Because a task suspends at
the awaited `create_tunnel` between its check and the set add,
concurrently scheduled tasks can each issue a call for the same port
(the counterexample). -/
theorem C2_orchestrator_dedup :
    (∀ (cfg : OrchConfig) (i : Nat) (c : CreateCall),
        c ∈ (orchTaskStep cfg i).2 →
        c.port ∉ cfg.st.detected_ports ∧ c.port ≠ 0) ∧
    (∀ (cfg : OrchConfig) (i : Nat) (p : Nat),
        p ∈ (orchTaskStep cfg i).1.st.detected_ports →
        p ∈ cfg.st.detected_ports ∨
          ∃ t, cfg.tasks[i]? = some (TaskState.awaiting p (some t))) ∧
    (∀ (cfg : OrchConfig) (i : Nat) (p : Nat),
        cfg.tasks[i]? = some (TaskState.awaiting p none) →
        (orchTaskStep cfg i).1.st = cfg.st) ∧
    (∀ (cfg : OrchConfig) (i : Nat) (text : String)
        (outcome : Option Tunnel) (p : Nat),
        cfg.tasks[i]? = some (TaskState.spawned text outcome) →
        extract_port text = some p → p ≠ 0 →
        p ∉ cfg.st.detected_ports →
        (orchTaskStep cfg i).2 = [⟨p, outcome.isSome⟩]) ∧
    (∀ evs : List OrchEvent, dedupOk (orchRun orchNew evs).2 = true) ∧
    (∀ (st : OrchState) (text : String) (outcome : Option Tunnel),
        orchSched ⟨st, [TaskState.spawned text outcome]⟩ [0, 0] =
          (⟨(on_localhost_detected st text outcome).1, [TaskState.done]⟩,
           (on_localhost_detected st text outcome).2)) := by
  refine ⟨?_, ?_, ?_, ?_, fun evs => orchRun_dedupOk evs orchNew,
    fun st text outcome => orchTask_serial_eq_handler st text outcome⟩
  · intro cfg i c hc
    cases ht : cfg.tasks[i]? with
    | none => simp [orchTaskStep, ht] at hc
    | some tk =>
      cases tk with
      | done => simp [orchTaskStep, ht] at hc
      | awaiting port outcome =>
          cases outcome <;> simp [orchTaskStep, ht] at hc
      | spawned text outcome =>
          cases hx : extract_port text with
          | none => simp [orchTaskStep, ht, hx] at hc
          | some port =>
            by_cases h0 : port = 0
            · simp [orchTaskStep, ht, hx, h0] at hc
            · by_cases hm : port ∈ cfg.st.detected_ports
              · simp [orchTaskStep, ht, hx, h0, hm] at hc
              · simp only [orchTaskStep, ht, hx, h0, hm, if_neg,
                  if_false, List.mem_singleton] at hc
                subst hc
                exact ⟨hm, h0⟩
  · intro cfg i p hp
    cases ht : cfg.tasks[i]? with
    | none => left; simpa [orchTaskStep, ht] using hp
    | some tk =>
      cases tk with
      | done => left; simpa [orchTaskStep, ht] using hp
      | spawned text outcome =>
          left
          cases hx : extract_port text with
          | none => simpa [orchTaskStep, ht, hx] using hp
          | some port =>
            by_cases h0 : port = 0
            · simpa [orchTaskStep, ht, hx, h0] using hp
            · by_cases hm : port ∈ cfg.st.detected_ports
              · simpa [orchTaskStep, ht, hx, h0, hm] using hp
              · simpa [orchTaskStep, ht, hx, h0, hm] using hp
      | awaiting port outcome =>
          cases outcome with
          | none => left; simpa [orchTaskStep, ht] using hp
          | some t =>
              simp only [orchTaskStep, ht] at hp
              unfold insertPort at hp
              by_cases hm : port ∈ cfg.st.detected_ports
              · left; simpa [hm] using hp
              · simp only [hm, if_neg, if_false, List.mem_cons] at hp
                cases hp with
                | inl h => subst h; right; exact ⟨t, rfl⟩
                | inr h => left; exact h
  · intro cfg i p ht
    simp [orchTaskStep, ht]
  · intro cfg i text outcome p ht hx h0 hm
    simp [orchTaskStep, ht, hx, h0, hm]

/-- Witness for C2: a fresh task for the unhandled port 8080 whose
facade call will fail issues exactly one (failing) create call. -/
theorem C2_orchestrator_dedup_witness :
    (orchTaskStep
        ⟨orchNew, [TaskState.spawned "App listening on port 8080" none]⟩
        0).2 = [⟨8080, false⟩] :=
  C2_orchestrator_dedup.2.2.2.1
    ⟨orchNew, [TaskState.spawned "App listening on port 8080" none]⟩
    0 "App listening on port 8080" none 8080 rfl (by decide) (by decide)
    (by decide)

/-! ### Hybrid facade lemmas -/

/-- Once the facade runs on Quick, every operation keeps it on Quick
and is served by Quick. -/
theorem hybridRun_quick (ops : List FacadeOp) :
    ∀ st : HybridState, st.is_named = false →
      (hybridRun st ops).1.is_named = false ∧
      ∀ s ∈ (hybridRun st ops).2, s = Strategy.quick := by
  induction ops with
  | nil => intro st h; simp [hybridRun, h]
  | cons op ops ih =>
      intro st h
      have hstep : (hybridStep st op).1.is_named = false ∧
          (hybridStep st op).2 = Strategy.quick := by
        cases op with
        | initStep o => simp [hybridStep, hybridInitStep, servedBy, h]
        | _ => simp [hybridStep, servedBy, h]
      have := ih (hybridStep st op).1 hstep.1
      simp only [hybridRun]
      refine ⟨this.1, ?_⟩
      intro s hs
      simp only [List.mem_cons] at hs
      cases hs with
      | inl h1 => exact h1 ▸ hstep.2
      | inr h2 => exact this.2 s h2

/-- C7: when the named strategy is selected and its `initialize()`
fails (returns `False` or raises), the facade switches to Quick and
returns `False`; from then on, for any sequence of facade operations
in the rest of the process lifetime — including further `initialize`
calls — the selection stays Quick and every operation (createTunnel,
destroys, lookups, health check, shutdown) is served by the Quick
strategy, with no retry of Named. -/
theorem C7_permanent_quick_fallback :
    ∀ (st : HybridState) (o : InitOutcome), st.is_named = true →
      o ≠ InitOutcome.ok →
      (hybridInitStep st o).1.is_named = false ∧
      (hybridInitStep st o).2 = false ∧
      ∀ ops : List FacadeOp,
        (hybridRun (hybridInitStep st o).1 ops).1.is_named = false ∧
        ∀ s ∈ (hybridRun (hybridInitStep st o).1 ops).2,
          s = Strategy.quick := by
  intro st o hn ho
  have hfail : (hybridInitStep st o).1.is_named = false ∧
      (hybridInitStep st o).2 = false := by
    cases o with
    | ok => exact absurd rfl ho
    | returnedFalse => simp [hybridInitStep, hn]
    | raised => simp [hybridInitStep, hn]
  exact ⟨hfail.1, hfail.2,
    fun ops => hybridRun_quick ops (hybridInitStep st o).1 hfail.1⟩

/-- Witness for C7: after a raised named `initialize()`, the facade
is still on Quick at the end of a concrete operation sequence that
includes a further `initialize` call. -/
theorem C7_permanent_quick_fallback_witness :
    (hybridRun (hybridInitStep ⟨true⟩ InitOutcome.raised).1
        [FacadeOp.createTunnel, FacadeOp.initStep InitOutcome.ok,
         FacadeOp.healthCheck]).1.is_named = false :=
  ((C7_permanent_quick_fallback ⟨true⟩ InitOutcome.raised rfl
      (by decide)).2.2
    [FacadeOp.createTunnel, FacadeOp.initStep InitOutcome.ok,
     FacadeOp.healthCheck]).1

/-! ### Named tunnel manager lemmas -/

/-- Appending a fresh port key makes it findable when absent before. -/
theorem lookupPort_append_self (l : List (Nat × Tunnel)) (p : Nat)
    (t : Tunnel) (h : lookupPort l p = none) :
    lookupPort (l ++ [(p, t)]) p = some t := by
  have h2 : List.find? (fun e => decide (e.1 = p)) l = none := by
    cases hf : List.find? (fun e => decide (e.1 = p)) l with
    | none => rfl
    | some x => simp [lookupPort, hf] at h
  unfold lookupPort
  rw [List.find?_append, h2, Option.none_or]
  simp [List.find?]

/-- C8: `add_port_mapping` is idempotent — whenever a call returns a
tunnel successfully, a second call with the same port (under any DNS
result and timestamp) returns that same tunnel and leaves the whole
state unchanged: no new ingress rule, no config rewrite, no DNS call,
no reload signal, no metadata write. -/
theorem C8_add_port_mapping_idempotent :
    ∀ (st : NamedState) (port : Nat) (cname cname2 : Option String)
      (now now2 : Nat) (st1 : NamedState) (ev : List NamedEvent)
      (t : Tunnel),
      add_port_mapping st port cname now = (st1, ev, Except.ok t) →
      add_port_mapping st1 port cname2 now2 = (st1, [], Except.ok t) := by
  intro st port cname cname2 now now2 st1 ev t h
  cases ha : has_active_session st.sm with
  | false => simp [add_port_mapping, ha] at h
  | true =>
    cases hs : st.sm.session with
    | none => simp [has_active_session, hs] at ha
    | some session =>
      cases hl : lookupPort st.tunnels port with
      | some t0 =>
          simp only [add_port_mapping, ha, hs, hl, Bool.not_true,
            Bool.false_eq_true, if_false, Prod.mk.injEq,
            Except.ok.injEq] at h
          obtain ⟨h1, _, h3⟩ := h
          subst h1 h3
          simp [add_port_mapping, ha, hs, hl]
      | none =>
          simp only [add_port_mapping, ha, hs, hl, Bool.not_true,
            Bool.false_eq_true, if_false, Prod.mk.injEq,
            Except.ok.injEq] at h
          obtain ⟨h1, _hev, h3⟩ := h
          subst h1
          subst h3
          have ha2 : (session.status = SessionStatus.running &&
              st.sm.pty.isSome) = true := by
            simpa [has_active_session, hs] using ha
          simp only [add_port_mapping, has_active_session, ha2,
            Bool.not_true, Bool.false_eq_true, if_false]
          rw [lookupPort_append_self st.tunnels port _ hl]

/-- Witness for C8: a concrete second `add_port_mapping` for port
3000 returns the tunnel created by the first call, with no state
change and no external effect. -/
theorem C8_add_port_mapping_idempotent_witness :
    add_port_mapping namedAfter 3000 none 2 =
      (namedAfter, [], Except.ok namedTunnel3000) :=
  C8_add_port_mapping_idempotent namedStart 3000 (some "u") none 1 2
    namedAfter namedEvents namedTunnel3000 (by decide)

end CloudeCode
